import Mathlib

/-!
Verification of the LiveKit SFU `Forwarder` (pkg/sfu/forwarder.go).

This file is a shallow embedding of the forwarder's allocation engine,
source-switch timestamp reconciler and translation-pipeline glue, translated
from the Go source.  Machine integers (`uint64`, `int64`, `int32`) are
modelled as `Nat` / `Int` with explicit reduction modulo `2^64` where the Go
code relies on wrap-around.  Go `float64` divisions that are immediately
compared against rational constants (`0.05`, `0.2`, `2.0`, ...) are modelled
by the corresponding exact comparisons over the integers / rationals
(cross-multiplication), which is the exact-arithmetic reading of the source's
floating-point comparisons.

Types from the `buffer` package (`VideoLayer` and its methods, the layer
constants) are not part of the given sources; they are modelled from the
spec, as marked on each such definition.
-/

namespace Forwarder

/-- `2^64`, the modulus of Go `uint64` arithmetic. -/
def UINT64_MOD : Nat := 18446744073709551616

/-- `2^63`, the first value that is negative when a `uint64` is
reinterpreted as `int64`. -/
def INT64_HALF : Nat := 9223372036854775808

/-- Reinterpret a `uint64` value (a `Nat`, reduced mod `2^64`) as a signed
`int64`, as Go's `int64(x)` conversion does. -/
def toInt64 (x : Nat) : Int :=
  if x % UINT64_MOD < INT64_HALF then ((x % UINT64_MOD : Nat) : Int)
  else ((x % UINT64_MOD : Nat) : Int) - (UINT64_MOD : Int)

/-- Go `uint64` subtraction `a - b` (wrap-around mod `2^64`). -/
def u64sub (a b : Nat) : Nat :=
  (a + (UINT64_MOD - b % UINT64_MOD)) % UINT64_MOD

/-- The final monotonicity guard of `processSourceSwitch`
(forwarder.go:1651-1655): if the candidate next timestamp is not strictly
after the last sent timestamp (as a signed 64-bit difference), replace it by
`extLastTS + 1`. -/
def tsGuard (extLastTS cand : Nat) : Nat :=
  if toInt64 (u64sub cand extLastTS) ≤ 0 then (extLastTS + 1) % UINT64_MOD
  else cand

/-- Timestamp selection of `processSourceSwitch` (forwarder.go:1587-1655) for
an already-started forwarder whose reference and expected timestamps have
been resolved.  Returns `none` when the switch errors out
("switch point too far behind"); otherwise `some extNextTS`.

The Go float comparisons `diffSeconds ≥ 0`, `|diffSeconds| > 0.05`,
`diffSeconds > 2.0` and `diffSeconds > resumeBehindThreshold` (with
`diffSeconds = int64(a-b)/clockRate`) are rendered as the exact
cross-multiplied integer/rational comparisons. -/
def selectNextTS (clockRate : Nat) (lastSSRC : Nat) (resumeBehindThreshold : Rat)
    (extLastTS extRefTS extExpectedTS : Nat) : Option Nat :=
  if lastSSRC = 0 then
    -- resume path (forwarder.go:1588-1627)
    let num : Int := toInt64 (u64sub extExpectedTS extRefTS)
    let cand : Nat :=
      if 0 ≤ num then
        if 0 < resumeBehindThreshold ∧ (num : Rat) > resumeBehindThreshold * (clockRate : Rat) then
          extExpectedTS
        else if num > 2 * (clockRate : Int) then
          extExpectedTS
        else
          extRefTS
      else
        extRefTS
    some (tsGuard extLastTS cand)
  else
    -- layer-switch path (forwarder.go:1628-1649)
    let num : Int := toInt64 (u64sub extRefTS extLastTS)
    if num < 0 then
      if 20 * num.natAbs > clockRate then
        none
      else
        some (tsGuard extLastTS ((extLastTS + 1) % UINT64_MOD))
    else
      some (tsGuard extLastTS extRefTS)

/-- The tail of `processSourceSwitch` acting on the RTP munger
(forwarder.go:1672): on success the munger's SN/TS offsets are updated with
a timestamp delta of `extNextTS - extLastTS`; on failure the munger is not
touched.  The munger state is abstract (`α`): `upd d st` stands for
`rtpMunger.UpdateSnTsOffsets(extPkt, 1, d)` applied to state `st`
(the munger implementation is outside the given sources). -/
def sourceSwitchApply {α : Type} (upd : Nat → α → α)
    (clockRate lastSSRC : Nat) (resumeBehindThreshold : Rat)
    (extLastTS extRefTS extExpectedTS : Nat) (st : α) : Option α :=
  match selectNextTS clockRate lastSSRC resumeBehindThreshold extLastTS extRefTS extExpectedTS with
  | none => none
  | some ts => some (upd (u64sub ts extLastTS) st)

/-- State threaded through `getTranslationParamsCommon`: the last incoming
SSRC and the RTP munger state (abstract). -/
structure CommonState (α : Type) where
  lastSSRC : Nat
  munger : α
deriving DecidableEq, Repr

/-- `getTranslationParamsCommon` (forwarder.go:1678-1699) as a state
transformer.  `uagst` abstracts `rtpMunger.UpdateAndGetSnTs`
(modelled from the spec: the munger implementation is outside the given
sources); it returns `none` on any munger error (all munger errors set
`shouldDrop`).  Result: `(shouldDrop, new state)`. -/
def commonStep {α : Type} (upd : Nat → α → α) (uagst : α → Option α)
    (pktSSRC clockRate : Nat) (resumeBehindThreshold : Rat)
    (extLastTS extRefTS extExpectedTS : Nat)
    (cs : CommonState α) : Bool × CommonState α :=
  if cs.lastSSRC ≠ pktSSRC then
    match sourceSwitchApply upd clockRate cs.lastSSRC resumeBehindThreshold
        extLastTS extRefTS extExpectedTS cs.munger with
    | none => (true, cs)
    | some st1 =>
      match uagst st1 with
      | none => (true, ⟨pktSSRC, st1⟩)
      | some st2 => (false, ⟨pktSSRC, st2⟩)
  else
    match uagst cs.munger with
    | none => (true, cs)
    | some st2 => (false, ⟨cs.lastSSRC, st2⟩)

/-- Modelled from the spec: `buffer.VideoLayer` (the `buffer` package is not
among the given sources).  A pair of spatial and temporal layer indices;
`-1` on an axis means invalid. -/
structure VideoLayer where
  Spatial : Int
  Temporal : Int
deriving DecidableEq, Repr

/-- Modelled from the spec: `buffer.InvalidLayerSpatial` (= -1). -/
def InvalidLayerSpatial : Int := -1

/-- Modelled from the spec: `buffer.InvalidLayerTemporal` (= -1). -/
def InvalidLayerTemporal : Int := -1

/-- Modelled from the spec: `buffer.InvalidLayer`. -/
def InvalidLayer : VideoLayer := ⟨InvalidLayerSpatial, InvalidLayerTemporal⟩

/-- Modelled from the spec: `buffer.DefaultMaxLayerSpatial` (= 2; bitrate
matrices are `[3][4]int64`). -/
def DefaultMaxLayerSpatial : Int := 2

/-- Modelled from the spec: `buffer.DefaultMaxLayerTemporal` (= 3). -/
def DefaultMaxLayerTemporal : Int := 3

/-- Modelled from the spec: `VideoLayer.IsValid` requires both axes ≥ 0. -/
def VideoLayer.IsValid (v : VideoLayer) : Prop :=
  0 ≤ v.Spatial ∧ 0 ≤ v.Temporal

instance (v : VideoLayer) : Decidable v.IsValid := by
  unfold VideoLayer.IsValid
  infer_instance

/-- Modelled from the spec: `VideoLayer.GreaterThan`, strict lexicographic
order on (spatial, temporal). -/
def VideoLayer.GreaterThan (v v2 : VideoLayer) : Prop :=
  v.Spatial > v2.Spatial ∨ (v.Spatial = v2.Spatial ∧ v.Temporal > v2.Temporal)

instance (v v2 : VideoLayer) : Decidable (v.GreaterThan v2) := by
  unfold VideoLayer.GreaterThan
  infer_instance

/-- The `Bitrates` matrix (`[3][4]int64` in Go), as a total function; all
code below only reads indices inside the matrix bounds. -/
def Bitrates : Type := Int → Int → Int

/-- `getBandwidthNeeded` (forwarder.go:1926-1932). -/
def getBandwidthNeeded (brs : Bitrates) (layer : VideoLayer) (fallback : Int) : Int :=
  if layer.IsValid ∧ brs layer.Spatial layer.Temporal > 0 then
    brs layer.Spatial layer.Temporal
  else
    fallback

/-- Inner loop of `getOptimalBandwidthNeeded` (forwarder.go:1909-1915):
scan temporal indices downward from `fuel - 1` to 0 in spatial row `s`,
returning the first non-zero bitrate, else 0. -/
def obnScanT (brs : Bitrates) (s : Int) : Nat → Int
  | 0 => 0
  | n + 1 => if brs s (n : Int) = 0 then obnScanT brs s n else brs s (n : Int)

/-- Outer loop of `getOptimalBandwidthNeeded` (forwarder.go:1908-1916):
scan spatial indices downward from `fuel - 1` to 0. -/
def obnScanS (brs : Bitrates) (maxT : Int) : Nat → Int
  | 0 => 0
  | n + 1 =>
    let r := obnScanT brs (n : Int) (maxT + 1).toNat
    if r = 0 then obnScanS brs maxT n else r

/-- `getOptimalBandwidthNeeded` (forwarder.go:1903-1924). -/
def getOptimalBandwidthNeeded (muted pubMuted : Bool) (maxPublishedLayer : Int)
    (brs : Bitrates) (maxLayer : VideoLayer) : Int :=
  if muted ∨ pubMuted ∨ maxPublishedLayer = InvalidLayerSpatial then 0
  else obnScanS brs maxLayer.Temporal (maxLayer.Spatial + 1).toNat

/-- The slice of forwarder state read and written by `Mute` / `resyncLocked`
(forwarder.go:406-442, 1417-1423). -/
structure MuteState where
  muted : Bool
  pubMuted : Bool
  currentLayer : VideoLayer
  lastSSRC : Nat
  resumeBehindThreshold : Rat
deriving DecidableEq, Repr

/-- `ResumeBehindThresholdSeconds` (forwarder.go:46). -/
def ResumeBehindThresholdSeconds : Rat := 1 / 5

/-- `resyncLocked` (forwarder.go:1417-1423). -/
def resyncLocked (st : MuteState) : MuteState :=
  { st with
    currentLayer := InvalidLayer
    lastSSRC := 0
    resumeBehindThreshold :=
      if st.pubMuted then ResumeBehindThresholdSeconds else st.resumeBehindThreshold }

/-- `Mute` (forwarder.go:406-442); returns (changed, new state). -/
def Mute (st : MuteState) (muted isSubscribeMutable : Bool) : Bool × MuteState :=
  if st.muted = muted then (false, st)
  else if muted ∧ ¬isSubscribeMutable then (false, st)
  else
    let st1 := { st with muted := muted }
    if muted then (true, resyncLocked st1) else (true, st1)

/-- `VideoTransition` (forwarder.go:153-157). -/
structure VideoTransition where
  From : VideoLayer
  To : VideoLayer
  BandwidthDelta : Int
deriving DecidableEq, Repr

/-- `VideoAllocationProvisional` (forwarder.go:140-149); the bitrates matrix
and the snapshot of forwarder state taken by `ProvisionalAllocatePrepare`. -/
structure Provisional where
  muted : Bool
  pubMuted : Bool
  maxSeenLayer : VideoLayer
  availableLayers : List Int
  bitrates : Bitrates
  maxLayer : VideoLayer
  currentLayer : VideoLayer
  allocatedLayer : VideoLayer

/-- Extra forwarder state read by the provisional-transition methods:
`vls.GetTarget()`, `lastAllocation.BandwidthRequested` and
`vls.IsOvershootOkay()`. -/
structure ProvisionalContext where
  prov : Provisional
  targetLayer : VideoLayer
  lastBandwidthRequested : Int
  overshootOkay : Bool

/-- Inner (temporal, descending) loop of the `maximalLayer` search in
`ProvisionalAllocateGetCooperativeTransition` (forwarder.go:860-872);
`fuel - 1` is the temporal index tried first. -/
def coopScanT (brs : Bitrates) (s : Int) : Nat → Option (VideoLayer × Int)
  | 0 => none
  | n + 1 =>
    if brs s (n : Int) ≠ 0 then some (⟨s, (n : Int)⟩, brs s (n : Int))
    else coopScanT brs s n

/-- Outer (spatial, descending) loop of the `maximalLayer` search
(forwarder.go:860-872). -/
def coopScanS (brs : Bitrates) (maxT : Int) : Nat → Option (VideoLayer × Int)
  | 0 => none
  | n + 1 =>
    match coopScanT brs (n : Int) (maxT + 1).toNat with
    | some r => some r
    | none => coopScanS brs maxT n

/-- The `maximalLayer` search of
`ProvisionalAllocateGetCooperativeTransition`: highest (spatial-major,
descending) layer within `maxLayer` bounds with a non-zero bitrate.
`none` corresponds to `maximalLayer = InvalidLayer`. -/
def coopMaximalLayer (brs : Bitrates) (maxLayer : VideoLayer) : Option (VideoLayer × Int) :=
  coopScanS brs maxLayer.Temporal (maxLayer.Spatial + 1).toNat

/-- Inner (temporal, ascending from `tStart`) loop of `findNextLayer`
(forwarder.go:898-919). -/
def fnlScanT (brs : Bitrates) (s : Int) (tStart : Int) : Nat → Option (VideoLayer × Int)
  | 0 => none
  | n + 1 =>
    if brs s tStart ≠ 0 then some (⟨s, tStart⟩, brs s tStart)
    else fnlScanT brs s (tStart + 1) n

/-- Outer (spatial, ascending from `sStart`) loop of `findNextLayer`
(forwarder.go:898-919). -/
def fnlScanS (brs : Bitrates) (minT maxT : Int) (sStart : Int) : Nat → Option (VideoLayer × Int)
  | 0 => none
  | n + 1 =>
    match fnlScanT brs sStart minT (maxT - minT + 1).toNat with
    | some r => some r
    | none => fnlScanS brs minT maxT (sStart + 1) n

/-- `findNextLayer` (forwarder.go:898-919): lowest (spatial-major,
ascending) layer in the rectangle with a non-zero bitrate, with
`(InvalidLayer, 0)` when none exists. -/
def findNextLayer (brs : Bitrates) (minS maxS minT maxT : Int) : VideoLayer × Int :=
  match fnlScanS brs minT maxT minS (maxS - minS + 1).toNat with
  | some r => r
  | none => (InvalidLayer, 0)

/-- `ProvisionalAllocateGetCooperativeTransition` (forwarder.go:822-955).
Returns the transition and the new `provisional.allocatedLayer`. -/
def provisionalAllocateGetCooperativeTransition
    (ctx : ProvisionalContext) (allowOvershoot : Bool) : VideoTransition × VideoLayer :=
  let pv := ctx.prov
  let existingTargetLayer := ctx.targetLayer
  if pv.muted ∨ pv.pubMuted then
    (⟨existingTargetLayer, InvalidLayer,
      0 - getBandwidthNeeded pv.bitrates existingTargetLayer ctx.lastBandwidthRequested⟩,
     InvalidLayer)
  else
    -- check if we should preserve current target (forwarder.go:856-896)
    let holdResult : Option (VideoTransition × VideoLayer) :=
      if existingTargetLayer.IsValid then
        match coopMaximalLayer pv.bitrates pv.maxLayer with
        | some (maximalLayer, maximalBandwidthRequired) =>
          if ¬existingTargetLayer.GreaterThan maximalLayer ∧
              pv.bitrates existingTargetLayer.Spatial existingTargetLayer.Temporal ≠ 0 then
            some (⟨existingTargetLayer, existingTargetLayer, 0⟩, existingTargetLayer)
          else if existingTargetLayer.GreaterThan maximalLayer then
            some (⟨existingTargetLayer, maximalLayer,
              maximalBandwidthRequired -
                getBandwidthNeeded pv.bitrates existingTargetLayer ctx.lastBandwidthRequested⟩,
              maximalLayer)
          else none
        | none => none
      else none
    match holdResult with
    | some r => r
    | none =>
      -- not streaming: find minimal, with optional overshoot
      -- (forwarder.go:921-939)
      let p1 : VideoLayer × Int :=
        if ¬existingTargetLayer.IsValid then
          let r0 := findNextLayer pv.bitrates 0 pv.maxLayer.Spatial 0 pv.maxLayer.Temporal
          if r0.2 = 0 ∧ pv.maxLayer.IsValid ∧ allowOvershoot ∧ ctx.overshootOkay then
            findNextLayer pv.bitrates (pv.maxLayer.Spatial + 1) DefaultMaxLayerSpatial
              0 DefaultMaxLayerTemporal
          else r0
        else (InvalidLayer, 0)
      -- if nothing available, leave target at current (forwarder.go:941-947)
      let p2 : VideoLayer × Int :=
        if ¬p1.1.IsValid then
          (pv.currentLayer,
           if pv.currentLayer.IsValid then
             pv.bitrates pv.currentLayer.Spatial pv.currentLayer.Temporal
           else p1.2)
        else p1
      (⟨existingTargetLayer, p2.1,
        p2.2 - getBandwidthNeeded pv.bitrates existingTargetLayer ctx.lastBandwidthRequested⟩,
       p2.1)

/-- `TransitionCostSpatial` (forwarder.go:44). -/
def TransitionCostSpatial : Int := 10

/-- Inner (spatial, descending) loop of the `maxReachableLayerTemporal`
search in `ProvisionalAllocateGetBestWeightedTransition`
(forwarder.go:986-997): true iff some spatial row `s < fuel` has a non-zero
bitrate at temporal `t`. -/
def reachScanS (brs : Bitrates) (t : Int) : Nat → Bool
  | 0 => false
  | n + 1 => if brs (n : Int) t ≠ 0 then true else reachScanS brs t n

/-- Outer (temporal, descending) loop of the `maxReachableLayerTemporal`
search (forwarder.go:986-997): the highest temporal `t < fuel` reachable at
some spatial layer within `maxS`, else `-1` (invalid). -/
def reachScanT (brs : Bitrates) (maxS : Int) : Nat → Int
  | 0 => InvalidLayerTemporal
  | n + 1 => if reachScanS brs (n : Int) (maxS + 1).toNat then (n : Int) else reachScanT brs maxS n

/-- `maxReachableLayerTemporal` of
`ProvisionalAllocateGetBestWeightedTransition` (forwarder.go:986-997). -/
def maxReachableLayerTemporal (brs : Bitrates) (maxLayer : VideoLayer) : Int :=
  reachScanT brs maxLayer.Spatial (maxLayer.Temporal + 1).toNat

/-- The integers `0, 1, ..., n-1` as a list of `Int`. -/
def ascInts (n : Nat) : List Int :=
  (List.range n).map Int.ofNat

/-- The candidate layers visited by the double loop of
`ProvisionalAllocateGetBestWeightedTransition` (forwarder.go:1017-1043):
all `(s, t)` with `0 ≤ s ≤ target.Spatial`, `0 ≤ t ≤ target.Temporal` in
ascending spatial-major order; the loop breaks exactly at
`(target.Spatial, target.Temporal)`, which is the last cell, so the visited
candidates are the full rectangle without its last element. -/
def weightedCandidates (tgt : VideoLayer) : List (Int × Int) :=
  ((ascInts (tgt.Spatial + 1).toNat).flatMap
    (fun s => (ascInts (tgt.Temporal + 1).toNat).map (fun t => (s, t)))).dropLast

/-- Loop body of the weighted-transition search (forwarder.go:1023-1041).
Accumulator: (bestLayer, bestBandwidthDelta, bestValue).  `value` is
`float32(bandwidthDelta) / float32(transitionCost + qualityCost)` in Go,
modelled exactly over `ℚ`. -/
def weightedStep (brs : Bitrates) (existingBandwidthNeeded : Int) (maxReach : Int)
    (tgt : VideoLayer) (acc : VideoLayer × Int × Rat) (p : Int × Int) :
    VideoLayer × Int × Rat :=
  let bandwidthDelta := max 0 (existingBandwidthNeeded - brs p.1 p.2)
  let transitionCost : Int := if tgt.Spatial ≠ p.1 then TransitionCostSpatial else 0
  let qualityCost : Int := (maxReach + 1) * (tgt.Spatial - p.1) + (tgt.Temporal - p.2)
  let value : Rat :=
    if transitionCost + qualityCost ≠ 0 then
      (bandwidthDelta : Rat) / ((transitionCost + qualityCost : Int) : Rat)
    else 0
  if value > acc.2.2 ∨ (value = acc.2.2 ∧ bandwidthDelta > acc.2.1) then
    (⟨p.1, p.2⟩, bandwidthDelta, value)
  else acc

/-- `ProvisionalAllocateGetBestWeightedTransition` (forwarder.go:957-1051).
Returns the transition and the new `provisional.allocatedLayer`. -/
def provisionalAllocateGetBestWeightedTransition (ctx : ProvisionalContext) :
    VideoTransition × VideoLayer :=
  let pv := ctx.prov
  let targetLayer := ctx.targetLayer
  if pv.muted ∨ pv.pubMuted then
    (⟨targetLayer, InvalidLayer,
      0 - getBandwidthNeeded pv.bitrates targetLayer ctx.lastBandwidthRequested⟩,
     InvalidLayer)
  else
    let maxReach := maxReachableLayerTemporal pv.bitrates pv.maxLayer
    if maxReach = InvalidLayerTemporal then
      -- feed dry: leave target at current (forwarder.go:999-1009)
      (⟨targetLayer, pv.currentLayer,
        0 - getBandwidthNeeded pv.bitrates targetLayer ctx.lastBandwidthRequested⟩,
       pv.currentLayer)
    else
      let existingBandwidthNeeded :=
        getBandwidthNeeded pv.bitrates targetLayer ctx.lastBandwidthRequested
      let best := (weightedCandidates targetLayer).foldl
        (weightedStep pv.bitrates existingBandwidthNeeded maxReach targetLayer)
        (InvalidLayer, 0, 0)
      (⟨targetLayer, best.1, -best.2.1⟩, best.1)

/-- Concrete provisional context for the weighted transition: feed dry
(all bitrates zero) while the current layer (2,3) is above the stored
target (1,1). -/
def weightedCtxDryFeed : ProvisionalContext :=
  { prov :=
      { muted := false
        pubMuted := false
        maxSeenLayer := ⟨2, 3⟩
        availableLayers := []
        bitrates := fun _ _ => 0
        maxLayer := ⟨2, 3⟩
        currentLayer := ⟨2, 3⟩
        allocatedLayer := InvalidLayer }
    targetLayer := ⟨1, 1⟩
    lastBandwidthRequested := 100
    overshootOkay := false }

/-- Concrete provisional context: target (0,1) is below the maximal layer
(1,0) but has a zero measured bitrate. -/
def coopCtxZeroTargetRate : ProvisionalContext :=
  { prov :=
      { muted := false
        pubMuted := false
        maxSeenLayer := ⟨2, 3⟩
        availableLayers := []
        bitrates := fun s t => if s = 1 ∧ t = 0 then 100 else 0
        maxLayer := ⟨2, 3⟩
        currentLayer := InvalidLayer
        allocatedLayer := InvalidLayer }
    targetLayer := ⟨0, 1⟩
    lastBandwidthRequested := 0
    overshootOkay := false }

/-- Concrete provisional context: target (0,1) below the maximal layer
(1,0), with a non-zero bitrate at the target. -/
def coopCtxHold : ProvisionalContext :=
  { prov :=
      { muted := false
        pubMuted := false
        maxSeenLayer := ⟨2, 3⟩
        availableLayers := []
        bitrates := fun s t => if (s = 1 ∧ t = 0) ∨ (s = 0 ∧ t = 1) then 100 else 0
        maxLayer := ⟨2, 3⟩
        currentLayer := InvalidLayer
        allocatedLayer := InvalidLayer }
    targetLayer := ⟨0, 1⟩
    lastBandwidthRequested := 0
    overshootOkay := false }

/-- Concrete provisional context exercising the weighted search: non-zero
bitrates everywhere inside the matrix, target (2,2). -/
def weightedCtxSearch : ProvisionalContext :=
  { prov :=
      { muted := false
        pubMuted := false
        maxSeenLayer := ⟨2, 3⟩
        availableLayers := []
        bitrates := fun s t =>
          if 0 ≤ s ∧ s ≤ 2 ∧ 0 ≤ t ∧ t ≤ 3 then 10 * (s + 1) + t else 0
        maxLayer := ⟨2, 3⟩
        currentLayer := ⟨2, 2⟩
        allocatedLayer := InvalidLayer }
    targetLayer := ⟨2, 2⟩
    lastBandwidthRequested := 25
    overshootOkay := false }

/-- `ProvisionalAllocate` (forwarder.go:778-820).  `overshootOkay` is
`vls.IsOvershootOkay()`.  Returns `((success, bitsConsumed), new
provisional.allocatedLayer)`. -/
def provisionalAllocate (pv : Provisional) (overshootOkay : Bool)
    (availableChannelCapacity : Int) (layer : VideoLayer)
    (allowPause allowOvershoot : Bool) : (Bool × Int) × VideoLayer :=
  if pv.muted ∨ pv.pubMuted ∨
      pv.maxSeenLayer.Spatial = InvalidLayerSpatial ∨
      ¬pv.maxLayer.IsValid ∨
      ((¬allowOvershoot ∨ ¬overshootOkay) ∧ layer.GreaterThan pv.maxLayer) then
    ((false, 0), pv.allocatedLayer)
  else
    let requiredBitrate := pv.bitrates layer.Spatial layer.Temporal
    if requiredBitrate = 0 then
      ((false, 0), pv.allocatedLayer)
    else
      let alreadyAllocatedBitrate : Int :=
        if pv.allocatedLayer.IsValid then
          pv.bitrates pv.allocatedLayer.Spatial pv.allocatedLayer.Temporal
        else 0
      -- a layer under maximum fits, take it (forwarder.go:800-804)
      if ¬layer.GreaterThan pv.maxLayer ∧
          requiredBitrate ≤ availableChannelCapacity + alreadyAllocatedBitrate then
        ((true, requiredBitrate - alreadyAllocatedBitrate), layer)
      -- given layer does not fit; if pause is not allowed, take the lowest
      -- possible layer (forwarder.go:806-817)
      else if ¬allowPause ∧
          (¬pv.allocatedLayer.IsValid ∨ ¬layer.GreaterThan pv.allocatedLayer) then
        ((true, requiredBitrate - alreadyAllocatedBitrate), layer)
      else
        ((false, 0), pv.allocatedLayer)

/-- Concrete workspace for `ProvisionalAllocate`: nothing committed yet,
probed layer (0,0) has bitrate 100 against capacity 50. -/
def provisionalNoFit : Provisional :=
  { muted := false
    pubMuted := false
    maxSeenLayer := ⟨2, 3⟩
    availableLayers := []
    bitrates := fun s t => if s = 0 ∧ t = 0 then 100 else 0
    maxLayer := ⟨2, 3⟩
    currentLayer := InvalidLayer
    allocatedLayer := InvalidLayer }

/-- `VideoPauseReason` (forwarder.go:54-62). -/
inductive VideoPauseReason
  | None
  | Muted
  | PubMuted
  | FeedDry
  | Bandwidth
deriving DecidableEq, Repr

/-- `VideoAllocation` (forwarder.go:83-94).  The echoed `Bitrates` field is
omitted (it is the input matrix, unchanged); `DistanceToDesired` (a Go
`float64` built from an exact integer quotient) is modelled over `ℚ`. -/
structure VideoAllocation where
  PauseReason : VideoPauseReason
  IsDeficient : Bool
  BandwidthRequested : Int
  BandwidthDelta : Int
  BandwidthNeeded : Int
  TargetLayer : VideoLayer
  RequestLayerSpatial : Int
  MaxLayer : VideoLayer
  DistanceToDesired : Rat
deriving DecidableEq, Repr

/-- Temporal row scan of `getDistanceToDesired` (descending from
`fuel - 1`): first temporal index with a non-zero bitrate in row `s`. -/
def distRowScan (brs : Bitrates) (s : Int) : Nat → Option Int
  | 0 => none
  | n + 1 => if brs s (n : Int) ≠ 0 then some (n : Int) else distRowScan brs s n

/-- The labeled `done:` scan of `getDistanceToDesired`
(forwarder.go:1956-1964): highest spatial row (descending from `fuel - 1`,
temporal descending from 3) containing a non-zero bitrate, else invalid. -/
def distSpatialScan (brs : Bitrates) : Nat → Int
  | 0 => InvalidLayerSpatial
  | n + 1 =>
    if (distRowScan brs (n : Int) (DefaultMaxLayerTemporal + 1).toNat).isSome then (n : Int)
    else distSpatialScan brs n

/-- `getDistanceToDesired` (forwarder.go:1934-2020). -/
def getDistanceToDesired (muted pubMuted : Bool) (maxSeenLayer : VideoLayer)
    (availableLayers : List Int) (brs : Bitrates)
    (targetLayer maxLayer : VideoLayer) : Rat :=
  if muted ∨ pubMuted ∨ ¬maxSeenLayer.IsValid ∨ ¬maxLayer.IsValid then 0
  else
    let maxAvailableSpatial0 := distSpatialScan brs (DefaultMaxLayerSpatial + 1).toNat
    -- stream-tracker-declared layers (forwarder.go:1967-1972)
    let avail := availableLayers.foldl
      (fun (acc : Int × Int) layer =>
        if layer > acc.1 then (layer, maxSeenLayer.Temporal) else acc)
      (maxAvailableSpatial0, InvalidLayerTemporal)
    let adjS1 := if avail.1 < maxLayer.Spatial then avail.1 else maxLayer.Spatial
    let adjS := if maxSeenLayer.Spatial < adjS1 then maxSeenLayer.Spatial else adjS1
    -- temporal availability in the adjusted spatial row (forwarder.go:1986-1993)
    let maxAvailableTemporal :=
      if adjS ≠ InvalidLayerSpatial then
        match distRowScan brs adjS (DefaultMaxLayerTemporal + 1).toNat with
        | some t => t
        | none => avail.2
      else avail.2
    let adjT1 := if maxAvailableTemporal < maxLayer.Temporal then maxAvailableTemporal
      else maxLayer.Temporal
    let adjT := if maxSeenLayer.Temporal < adjT1 then maxSeenLayer.Temporal else adjT1
    let adjustedMaxLayer : VideoLayer :=
      if ¬(⟨adjS, adjT⟩ : VideoLayer).IsValid then ⟨0, 0⟩ else ⟨adjS, adjT⟩
    let adjustedTargetLayer : VideoLayer :=
      if ¬targetLayer.IsValid then ⟨0, 0⟩ else targetLayer
    let distance0 :=
      (adjustedMaxLayer.Spatial - adjustedTargetLayer.Spatial) * (maxSeenLayer.Temporal + 1) +
        (adjustedMaxLayer.Temporal - adjustedTargetLayer.Temporal)
    let distance :=
      if ¬targetLayer.IsValid then distance0 + (maxSeenLayer.Temporal + 1) else distance0
    (distance : Rat) / ((maxSeenLayer.Temporal + 1 : Int) : Rat)

/-- The forwarder state read by `AllocateOptimal`
(forwarder.go:617-751): codec kind, mute flags, the selector's max /
max-seen / current / request-spatial / target layers, the previous
allocation's bandwidth (for the delta), whether the selector permits
overshoot, and whether the codec is H.264 (single temporal layer). -/
structure OptimalInputs where
  isVideo : Bool
  muted : Bool
  pubMuted : Bool
  maxLayer : VideoLayer
  maxSeenLayer : VideoLayer
  currentLayer : VideoLayer
  requestSpatial : Int
  prevTargetLayer : VideoLayer
  lastBandwidthRequested : Int
  overshootOkay : Bool
  isH264 : Bool
  lastAllocation : VideoAllocation

/-- The codec clamp of `updateAllocation` (forwarder.go:1379-1383): H.264
supports no temporal layers, so a valid target is clamped to temporal 0.
(The remainder of `updateAllocation` stores the allocation and updates the
selector; the returned allocation is the clamped one.) -/
def updateAllocationResult (isH264 : Bool) (alloc : VideoAllocation) : VideoAllocation :=
  if alloc.TargetLayer.IsValid ∧ isH264 then
    { alloc with TargetLayer := ⟨alloc.TargetLayer.Spatial, 0⟩ }
  else alloc

/-- `AllocateOptimal` (forwarder.go:617-751). -/
def allocateOptimal (inp : OptimalInputs) (availableLayers : List Int) (brs : Bitrates)
    (allowOvershoot : Bool) : VideoAllocation :=
  if ¬inp.isVideo then inp.lastAllocation
  else
    let maxLayer := inp.maxLayer
    let maxSeenLayer := inp.maxSeenLayer
    let currentLayer := inp.currentLayer
    let requestSpatial := inp.requestSpatial
    let optimalBandwidthNeeded :=
      getOptimalBandwidthNeeded inp.muted inp.pubMuted maxSeenLayer.Spatial brs maxLayer
    let pauseReason0 :=
      if optimalBandwidthNeeded = 0 then VideoPauseReason.FeedDry else VideoPauseReason.None
    -- getMaxTemporal (forwarder.go:642-648)
    let maxTemporal :=
      if maxSeenLayer.Temporal ≠ InvalidLayerTemporal ∧ maxSeenLayer.Temporal < maxLayer.Temporal
      then maxSeenLayer.Temporal else maxLayer.Temporal
    -- the switch (forwarder.go:663-730): (target, requestLayerSpatial, pause)
    let step : VideoLayer × Int × VideoPauseReason :=
      if ¬maxLayer.IsValid ∨ maxSeenLayer.Spatial = InvalidLayerSpatial then
        (InvalidLayer, requestSpatial, pauseReason0)
      else if inp.muted then (InvalidLayer, requestSpatial, VideoPauseReason.Muted)
      else if inp.pubMuted then (InvalidLayer, requestSpatial, VideoPauseReason.PubMuted)
      else
        let maxLayerSpatialLimit := min maxLayer.Spatial maxSeenLayer.Spatial
        let scan := availableLayers.foldl
          (fun (acc : Int × Int) al =>
            (if al > acc.1 ∧ al ≤ maxLayerSpatialLimit then al else acc.1,
             if al > acc.2 then al else acc.2))
          (InvalidLayerSpatial, InvalidLayerSpatial)
        let requestLayerSpatial :=
          if scan.1 = InvalidLayerSpatial ∧ scan.2 ≠ InvalidLayerSpatial ∧
              allowOvershoot ∧ inp.overshootOkay
          then scan.2 else scan.1
        if currentLayer.IsValid then
          let tl : VideoLayer :=
            if (requestLayerSpatial = requestSpatial ∧ currentLayer.Spatial = requestSpatial) ∨
                requestLayerSpatial = InvalidLayerSpatial then
              ⟨currentLayer.Spatial, maxTemporal⟩
            else ⟨requestLayerSpatial, maxTemporal⟩
          (tl, tl.Spatial, pauseReason0)
        else
          -- opportunisticAlloc (forwarder.go:650-661, 721-729)
          let maxSpatial :=
            if allowOvershoot ∧ inp.overshootOkay ∧ maxSeenLayer.Spatial > maxLayer.Spatial
            then maxSeenLayer.Spatial else maxLayer.Spatial
          let tl : VideoLayer := ⟨min maxSeenLayer.Spatial maxSpatial, maxTemporal⟩
          (tl, (if requestLayerSpatial = InvalidLayerSpatial then maxLayerSpatialLimit
                else requestLayerSpatial), pauseReason0)
    -- post-processing (forwarder.go:732-748)
    let targetLayer := if ¬step.1.IsValid then InvalidLayer else step.1
    let requestLS := if ¬step.1.IsValid then InvalidLayerSpatial else step.2.1
    let bandwidthRequested := if targetLayer.IsValid then optimalBandwidthNeeded else 0
    updateAllocationResult inp.isH264
      { PauseReason := step.2.2
        IsDeficient := false
        BandwidthRequested := bandwidthRequested
        BandwidthDelta := bandwidthRequested -
          getBandwidthNeeded brs inp.prevTargetLayer inp.lastBandwidthRequested
        BandwidthNeeded := optimalBandwidthNeeded
        TargetLayer := targetLayer
        RequestLayerSpatial := requestLS
        MaxLayer := maxLayer
        DistanceToDesired := getDistanceToDesired inp.muted inp.pubMuted maxSeenLayer
          availableLayers brs targetLayer maxLayer }

/-- A default previous allocation (`VideoAllocationDefault`,
forwarder.go:130-136). -/
def VideoAllocationDefault : VideoAllocation :=
  { PauseReason := VideoPauseReason.FeedDry
    IsDeficient := false
    BandwidthRequested := 0
    BandwidthDelta := 0
    BandwidthNeeded := 0
    TargetLayer := InvalidLayer
    RequestLayerSpatial := InvalidLayerSpatial
    MaxLayer := InvalidLayer
    DistanceToDesired := 0 }

/-- Concrete `AllocateOptimal` input: subscriber max layer invalid,
max seen (2,3), not muted. -/
def optimalInpInvalidMax : OptimalInputs :=
  { isVideo := true
    muted := false
    pubMuted := false
    maxLayer := InvalidLayer
    maxSeenLayer := ⟨2, 3⟩
    currentLayer := InvalidLayer
    requestSpatial := InvalidLayerSpatial
    prevTargetLayer := InvalidLayer
    lastBandwidthRequested := 0
    overshootOkay := false
    isH264 := false
    lastAllocation := VideoAllocationDefault }

/-- Concrete `AllocateOptimal` input for scenario S2: MaxLayer = (2,3),
MaxSeen = (2,3), not muted, current invalid. -/
def optimalInpFeedDry : OptimalInputs :=
  { isVideo := true
    muted := false
    pubMuted := false
    maxLayer := ⟨2, 3⟩
    maxSeenLayer := ⟨2, 3⟩
    currentLayer := InvalidLayer
    requestSpatial := InvalidLayerSpatial
    prevTargetLayer := InvalidLayer
    lastBandwidthRequested := 0
    overshootOkay := false
    isH264 := false
    lastAllocation := VideoAllocationDefault }

/-- Outcome of one `doAllocation` search pass inside `AllocateNextHigher`
(forwarder.go:1161-1206), projected onto the decision: `halted` is the
early `return true, f.lastAllocation, false` when the first non-zero
candidate does not fit; `taken l bw` is the `return true, ...boosted
allocation..., true` with target `l` and `BandwidthRequested = bw`; a pass
that exhausts its rectangle returns `none` (`return false, ..., false`). -/
inductive NHOutcome
  | halted
  | taken (l : VideoLayer) (bw : Int)
deriving DecidableEq, Repr

/-- Inner (temporal, ascending from `t`) loop of `doAllocation`
(forwarder.go:1165-1203). -/
def nhScanT (brs : Bitrates) (overshootPermitted : Bool) (alreadyAllocated cap : Int)
    (s : Int) (t : Int) : Nat → Option NHOutcome
  | 0 => none
  | n + 1 =>
    if brs s t = 0 then nhScanT brs overshootPermitted alreadyAllocated cap s (t + 1) n
    else if ¬overshootPermitted ∧ brs s t - alreadyAllocated > cap then some NHOutcome.halted
    else some (NHOutcome.taken ⟨s, t⟩ (brs s t))

/-- Outer (spatial, ascending from `s`) loop of `doAllocation`
(forwarder.go:1165-1203). -/
def nhScanS (brs : Bitrates) (overshootPermitted : Bool) (alreadyAllocated cap : Int)
    (minT maxT : Int) (s : Int) : Nat → Option NHOutcome
  | 0 => none
  | n + 1 =>
    match nhScanT brs overshootPermitted alreadyAllocated cap s minT (maxT - minT + 1).toNat with
    | some o => some o
    | none => nhScanS brs overshootPermitted alreadyAllocated cap minT maxT (s + 1) n

/-- `doAllocation` of `AllocateNextHigher` (forwarder.go:1161-1206) over the
rectangle `[minS, maxS] × [minT, maxT]`; `overshootPermitted` is
`allowOvershoot && vls.IsOvershootOkay()`. -/
def nhPass (brs : Bitrates) (overshootPermitted : Bool) (alreadyAllocated cap : Int)
    (minS maxS minT maxT : Int) : Option NHOutcome :=
  nhScanS brs overshootPermitted alreadyAllocated cap minT maxT minS (maxS - minS + 1).toNat

/-- Stated from the claim: the first candidate with a non-zero bitrate in
scan order (spatial-major ascending), within the inner rectangle row
starting at `t`. -/
def firstNonZeroT (brs : Bitrates) (s : Int) (t : Int) : Nat → Option Int
  | 0 => none
  | n + 1 => if brs s t = 0 then firstNonZeroT brs s (t + 1) n else some t

/-- Stated from the claim: first non-zero candidate over the rectangle,
spatial-major ascending. -/
def firstNonZeroST (brs : Bitrates) (minT maxT : Int) (s : Int) : Nat → Option (Int × Int)
  | 0 => none
  | n + 1 =>
    match firstNonZeroT brs s minT (maxT - minT + 1).toNat with
    | some t => some (s, t)
    | none => firstNonZeroST brs minT maxT (s + 1) n

/-- Stated from the claim (spec-side definition): the pass is decided by the
first non-zero-bitrate candidate alone — taken when it fits
(`bitrate − alreadyAllocated ≤ capacity`) or unconditionally under permitted
overshoot, otherwise the pass halts; no further candidate is examined. -/
def nhPassFirstFitSpec (brs : Bitrates) (overshootPermitted : Bool)
    (alreadyAllocated cap : Int) (minS maxS minT maxT : Int) : Option NHOutcome :=
  match firstNonZeroST brs minT maxT minS (maxS - minS + 1).toNat with
  | none => none
  | some (s, t) =>
    if ¬overshootPermitted ∧ brs s t - alreadyAllocated > cap then some NHOutcome.halted
    else some (NHOutcome.taken ⟨s, t⟩ (brs s t))

/-- The three search passes of `AllocateNextHigher` (forwarder.go:1208-1242)
after the audio / not-deficient / pending-target guards: temporal-up within
the current target spatial, then spatial-up, then overshoot above MaxLayer
when permitted (`op = allowOvershoot && vls.IsOvershootOkay()`).  A `none`
pass result (`done = false`) falls through to the next pass; overall `none`
corresponds to `return f.lastAllocation, false`. -/
def allocateNextHigherSearch (brs : Bitrates) (op : Bool) (alreadyAllocated cap : Int)
    (targetLayer maxLayer : VideoLayer) : Option NHOutcome :=
  let p1 :=
    if targetLayer.IsValid then
      nhPass brs op alreadyAllocated cap targetLayer.Spatial targetLayer.Spatial
        (targetLayer.Temporal + 1) maxLayer.Temporal
    else none
  match p1 with
  | some o => some o
  | none =>
    match nhPass brs op alreadyAllocated cap (targetLayer.Spatial + 1) maxLayer.Spatial
        0 maxLayer.Temporal with
    | some o => some o
    | none =>
      if op ∧ maxLayer.IsValid then
        nhPass brs op alreadyAllocated cap (maxLayer.Spatial + 1) DefaultMaxLayerSpatial
          0 DefaultMaxLayerTemporal
      else none

/-- `FlagPauseOnDowngrade` (forwarder.go:41). -/
def FlagPauseOnDowngrade : Bool := true

/-- The selection result returned by `vls.Select`
(forwarder.go:1726-1742); the selector implementations are outside the
given sources. -/
structure SelectionResult where
  isSelected : Bool
  isRelevant : Bool
  isResuming : Bool
  isSwitching : Bool
  rtpMarker : Bool
deriving DecidableEq, Repr

/-- `getTranslationParamsVideo` (forwarder.go:1712-1775) as a state
transformer over an abstract selector state `σ` and munger state `α`
(selector and munger implementations are outside the given sources):
`selectFn` is `vls.Select` (returns the result and the committed selector
state), `rollback` is `vls.Rollback`, `notSelectedUpd` is the
highest-sequence-number bookkeeping done for relevant-but-not-selected
packets (forwarder.go:1729-1736), and `common` is the common translation
path (`getTranslationParamsCommon`).  Returns
`(shouldDrop, selector state, common state)`. -/
def getTranslationParamsVideoM {σ α : Type}
    (selectFn : σ → SelectionResult × σ) (rollback : σ → σ)
    (notSelectedUpd : α → α)
    (common : CommonState α → Bool × CommonState α)
    (targetLayer currentLayer : VideoLayer)
    (deficient started : Bool)
    (sel : σ) (cs : CommonState α) : Bool × σ × CommonState α :=
  if ¬targetLayer.IsValid then (true, sel, cs)
  else
    let r := selectFn sel
    if ¬r.1.isSelected then
      (true, r.2,
       if started ∧ r.1.isRelevant then { cs with munger := notSelectedUpd cs.munger } else cs)
    else if FlagPauseOnDowngrade ∧ deficient ∧ targetLayer.Spatial < currentLayer.Spatial then
      (true, if r.1.isSwitching then rollback r.2 else r.2, cs)
    else
      let c := common cs
      if c.1 then (true, if r.1.isSwitching then rollback r.2 else r.2, c.2)
      else (false, r.2, c.2)

-- ==================== THEOREMS ====================

/-- C9 counterexample: the claim "a reconciler error drops the packet but
the selector is not rolled back — state committed by the preceding Select is
kept" fails: with a switching Select (selector state 0 committed to 1,
rollback resets to 0) and a reconciler failure (reference 1 s behind last),
forwarder.go:1768-1772 rolls the selector back: the final selector state is
0, not the committed state 1 (the munger/SSRC state is unchanged and the
packet is dropped). -/
theorem video_reconciler_failure_claim_counterexample :
    selectNextTS 90000 5 0 2000000 1910000 2000000 = none ∧
    (getTranslationParamsVideoM
        (fun s : Nat => (⟨true, true, false, true, false⟩, s + 1)) (fun _ => 0) id
        (commonStep (fun d m => m + d) (fun m : Nat => some m) 7 90000 0
          2000000 1910000 2000000)
        ⟨1, 1⟩ ⟨1, 1⟩ false true 0 ⟨5, 42⟩).1 = true ∧
    (getTranslationParamsVideoM
        (fun s : Nat => (⟨true, true, false, true, false⟩, s + 1)) (fun _ => 0) id
        (commonStep (fun d m => m + d) (fun m : Nat => some m) 7 90000 0
          2000000 1910000 2000000)
        ⟨1, 1⟩ ⟨1, 1⟩ false true 0 ⟨5, 42⟩).2.1 ≠ 1 := by
  decide

/-- C9 (amended): in the video path, when the SSRC changed and the
source-switch reconciler fails, the packet is dropped and the munger / SSRC
state is left unchanged, but the selector IS rolled back whenever the
preceding Select reported a switch (`IsSwitching`): the final selector state
is `rollback` of the committed state, so the next packet retries the switch
from the rolled-back state. -/
theorem video_reconciler_failure_rollback {σ α : Type}
    (selectFn : σ → SelectionResult × σ) (rollback : σ → σ) (notSelectedUpd : α → α)
    (upd : Nat → α → α) (uagst : α → Option α)
    (pktSSRC clockRate : Nat) (rbt : Rat) (extLastTS extRefTS extExpectedTS : Nat)
    (targetLayer currentLayer : VideoLayer) (deficient started : Bool)
    (sel : σ) (cs : CommonState α) (res : SelectionResult) (sel1 : σ)
    (ht : targetLayer.IsValid)
    (hsel : selectFn sel = (res, sel1))
    (hres : res.isSelected = true) (hsw : res.isSwitching = true)
    (hng : ¬(deficient = true ∧ targetLayer.Spatial < currentLayer.Spatial))
    (hssrc : cs.lastSSRC ≠ pktSSRC)
    (hfail : selectNextTS clockRate cs.lastSSRC rbt extLastTS extRefTS extExpectedTS = none) :
    getTranslationParamsVideoM selectFn rollback notSelectedUpd
      (commonStep upd uagst pktSSRC clockRate rbt extLastTS extRefTS extExpectedTS)
      targetLayer currentLayer deficient started sel cs = (true, rollback sel1, cs) := by
  have hcommon : commonStep upd uagst pktSSRC clockRate rbt extLastTS extRefTS extExpectedTS
      cs = (true, cs) := by
    unfold commonStep sourceSwitchApply
    rw [if_pos hssrc, hfail]
  unfold getTranslationParamsVideoM
  rw [if_neg (not_not_intro ht), hsel]
  rw [if_neg (by simp [hres])]
  rw [if_neg (fun hc => hng ⟨hc.2.1, hc.2.2⟩)]
  rw [hcommon]
  simp [hsw]

theorem video_reconciler_failure_rollback_witness :
    getTranslationParamsVideoM
      (fun s : Nat => (⟨true, true, false, true, false⟩, s + 1)) (fun _ => 0) id
      (commonStep (fun d m => m + d) (fun m : Nat => some m) 7 90000 0
        2000000 1910000 2000000)
      ⟨1, 1⟩ ⟨1, 1⟩ false true 0 ⟨5, 42⟩ = (true, 0, ⟨5, 42⟩) :=
  video_reconciler_failure_rollback
    (fun s : Nat => (⟨true, true, false, true, false⟩, s + 1)) (fun _ => 0) id
    (fun d m => m + d) (fun m : Nat => some m) 7 90000 0 2000000 1910000 2000000
    ⟨1, 1⟩ ⟨1, 1⟩ false true 0 ⟨5, 42⟩ ⟨true, true, false, true, false⟩ 1
    (by decide) (by decide) (by decide) (by decide) (by decide) (by decide) (by decide)

theorem nhScanT_firstFit (brs : Bitrates) (op : Bool) (already cap : Int) (s : Int) :
    ∀ (n : Nat) (t : Int),
      nhScanT brs op already cap s t n =
        match firstNonZeroT brs s t n with
        | none => none
        | some t2 =>
          if ¬op ∧ brs s t2 - already > cap then some NHOutcome.halted
          else some (NHOutcome.taken ⟨s, t2⟩ (brs s t2)) := by
  intro n
  induction n with
  | zero =>
    intro t
    rfl
  | succ n ih =>
    intro t
    unfold nhScanT firstNonZeroT
    by_cases h : brs s t = 0
    · rw [if_pos h, if_pos h, ih]
    · rw [if_neg h, if_neg h]

theorem nhScanS_firstFit (brs : Bitrates) (op : Bool) (already cap : Int) (minT maxT : Int) :
    ∀ (n : Nat) (s : Int),
      nhScanS brs op already cap minT maxT s n =
        match firstNonZeroST brs minT maxT s n with
        | none => none
        | some (s2, t2) =>
          if ¬op ∧ brs s2 t2 - already > cap then some NHOutcome.halted
          else some (NHOutcome.taken ⟨s2, t2⟩ (brs s2 t2)) := by
  intro n
  induction n with
  | zero =>
    intro s
    rfl
  | succ n ih =>
    intro s
    unfold nhScanS firstNonZeroST
    rw [nhScanT_firstFit]
    cases hft : firstNonZeroT brs s minT (maxT - minT + 1).toNat with
    | none =>
      simp only
      exact ih (s + 1)
    | some t =>
      dsimp only
      by_cases hc : ¬op = true ∧ brs s t - already > cap
      · rw [if_pos hc]
      · rw [if_neg hc]

/-- C7: each search pass of `AllocateNextHigher` is decided by the first
candidate with a non-zero bitrate in scan order alone: that candidate is
taken when it fits (`bitrate − alreadyAllocated ≤ capacity`) or
unconditionally under permitted overshoot, and otherwise the pass halts
immediately (returning the last allocation with `boosted = false`) — it
never skips a non-fitting non-zero candidate to try another layer. -/
theorem allocate_next_higher_first_fit (brs : Bitrates) (op : Bool) (already cap : Int)
    (minS maxS minT maxT : Int) :
    nhPass brs op already cap minS maxS minT maxT =
      nhPassFirstFitSpec brs op already cap minS maxS minT maxT := by
  unfold nhPass nhPassFirstFitSpec
  rw [nhScanS_firstFit]

theorem getBandwidthNeeded_nonneg (brs : Bitrates) (layer : VideoLayer) (fb : Int)
    (hb : ∀ s t, 0 ≤ brs s t) (hf : 0 ≤ fb) :
    0 ≤ getBandwidthNeeded brs layer fb := by
  unfold getBandwidthNeeded
  split
  · exact hb _ _
  · exact hf

theorem ascInts_mem (n : Nat) (x : Int) (hx : x ∈ ascInts n) :
    0 ≤ x ∧ x < (n : Int) := by
  unfold ascInts at hx
  rw [List.mem_map] at hx
  obtain ⟨i, hi, rfl⟩ := hx
  rw [List.mem_range] at hi
  simp only [Int.ofNat_eq_natCast]
  omega

theorem weightedCandidates_mem (tgt : VideoLayer) (p : Int × Int)
    (hp : p ∈ weightedCandidates tgt) :
    p.1 ≤ tgt.Spatial ∧ p.2 ≤ tgt.Temporal := by
  unfold weightedCandidates at hp
  have hp2 := List.mem_of_mem_dropLast hp
  rw [List.mem_flatMap] at hp2
  obtain ⟨s, hs, hpm⟩ := hp2
  rw [List.mem_map] at hpm
  obtain ⟨t, ht, rfl⟩ := hpm
  have h1 := ascInts_mem _ _ hs
  have h2 := ascInts_mem _ _ ht
  constructor
  · show s ≤ tgt.Spatial
    omega
  · show t ≤ tgt.Temporal
    omega

theorem weightedStep_cases (brs : Bitrates) (ebn maxReach : Int) (tgt : VideoLayer)
    (acc : VideoLayer × Int × Rat) (p : Int × Int) :
    weightedStep brs ebn maxReach tgt acc p = acc ∨
    ((weightedStep brs ebn maxReach tgt acc p).1 = ⟨p.1, p.2⟩ ∧
      (weightedStep brs ebn maxReach tgt acc p).2.1 = max 0 (ebn - brs p.1 p.2)) := by
  simp only [weightedStep]
  repeat' split
  all_goals first
  | (left; rfl)
  | (right; exact ⟨rfl, rfl⟩)

theorem weightedFold_bounds (brs : Bitrates) (ebn maxReach : Int) (tgt : VideoLayer)
    (l : List (Int × Int))
    (hmem : ∀ p ∈ l, p.1 ≤ tgt.Spatial ∧ p.2 ≤ tgt.Temporal)
    (acc : VideoLayer × Int × Rat)
    (hacc : acc.1.Spatial ≤ tgt.Spatial ∧ acc.1.Temporal ≤ tgt.Temporal ∧ 0 ≤ acc.2.1) :
    (l.foldl (weightedStep brs ebn maxReach tgt) acc).1.Spatial ≤ tgt.Spatial ∧
    (l.foldl (weightedStep brs ebn maxReach tgt) acc).1.Temporal ≤ tgt.Temporal ∧
    0 ≤ (l.foldl (weightedStep brs ebn maxReach tgt) acc).2.1 := by
  induction l generalizing acc with
  | nil => exact hacc
  | cons p rest ih =>
    simp only [List.foldl_cons]
    apply ih
    · intro q hq
      exact hmem q (List.mem_cons_of_mem p hq)
    · rcases weightedStep_cases brs ebn maxReach tgt acc p with h | ⟨h1, h2⟩
      · rw [h]
        exact hacc
      · rw [h1, h2]
        have hpb := hmem p (List.mem_cons_self p rest)
        exact ⟨hpb.1, hpb.2, le_max_left 0 _⟩

/-- C4 counterexample: the claim "the transition returned by
`ProvisionalAllocateGetBestWeightedTransition` has `To ≤ From`
componentwise" fails when the feed has gone dry and the current layer is
above the stored target: with all bitrates zero, current layer (2,3) and
target (1,1), the returned transition is `From = (1,1)`, `To = (2,3)`. -/
theorem weighted_transition_claim_counterexample :
    ¬((provisionalAllocateGetBestWeightedTransition weightedCtxDryFeed).1.To.Spatial ≤
        (provisionalAllocateGetBestWeightedTransition weightedCtxDryFeed).1.From.Spatial ∧
      (provisionalAllocateGetBestWeightedTransition weightedCtxDryFeed).1.To.Temporal ≤
        (provisionalAllocateGetBestWeightedTransition weightedCtxDryFeed).1.From.Temporal) := by
  decide

/-- C4 (amended): for non-negative bitrates and last bandwidth requested and
a stored target with components ≥ -1, the transition returned by
`ProvisionalAllocateGetBestWeightedTransition` always has
`BandwidthDelta ≤ 0`, and `To ≤ From` componentwise whenever the feed is not
dry (some layer within MaxLayer has a non-zero bitrate); in the dry-feed
case `To` is the current layer, which may exceed `From`. -/
theorem weighted_transition_never_upgrade (ctx : ProvisionalContext)
    (hb : ∀ s t, 0 ≤ ctx.prov.bitrates s t)
    (hl : 0 ≤ ctx.lastBandwidthRequested)
    (hs : -1 ≤ ctx.targetLayer.Spatial) (ht : -1 ≤ ctx.targetLayer.Temporal) :
    (provisionalAllocateGetBestWeightedTransition ctx).1.BandwidthDelta ≤ 0 ∧
    (maxReachableLayerTemporal ctx.prov.bitrates ctx.prov.maxLayer ≠ InvalidLayerTemporal →
      (provisionalAllocateGetBestWeightedTransition ctx).1.To.Spatial ≤
        ctx.targetLayer.Spatial ∧
      (provisionalAllocateGetBestWeightedTransition ctx).1.To.Temporal ≤
        ctx.targetLayer.Temporal) := by
  have hg : 0 ≤ getBandwidthNeeded ctx.prov.bitrates ctx.targetLayer
      ctx.lastBandwidthRequested := getBandwidthNeeded_nonneg _ _ _ hb hl
  by_cases hmute : ctx.prov.muted = true ∨ ctx.prov.pubMuted = true
  · simp only [provisionalAllocateGetBestWeightedTransition]
    rw [if_pos hmute]
    refine ⟨?_, fun _ => ⟨?_, ?_⟩⟩ <;>
      · dsimp only [InvalidLayer, InvalidLayerSpatial, InvalidLayerTemporal]
        omega
  · by_cases hdry :
        maxReachableLayerTemporal ctx.prov.bitrates ctx.prov.maxLayer = InvalidLayerTemporal
    · simp only [provisionalAllocateGetBestWeightedTransition]
      rw [if_neg hmute, if_pos hdry]
      exact ⟨by dsimp only; omega, fun hcon => absurd hdry hcon⟩
    · have hfold := weightedFold_bounds ctx.prov.bitrates
        (getBandwidthNeeded ctx.prov.bitrates ctx.targetLayer ctx.lastBandwidthRequested)
        (maxReachableLayerTemporal ctx.prov.bitrates ctx.prov.maxLayer)
        ctx.targetLayer (weightedCandidates ctx.targetLayer)
        (fun p hp => weightedCandidates_mem ctx.targetLayer p hp)
        (InvalidLayer, 0, 0)
        ⟨by dsimp only [InvalidLayer, InvalidLayerSpatial]; omega,
         by dsimp only [InvalidLayer, InvalidLayerTemporal]; omega,
         le_refl 0⟩
      have h00 := hfold.2.2
      simp only [provisionalAllocateGetBestWeightedTransition]
      rw [if_neg hmute, if_neg hdry]
      refine ⟨?_, fun _ => ⟨hfold.1, hfold.2.1⟩⟩
      dsimp only
      omega

theorem weighted_transition_never_upgrade_witness :
    (provisionalAllocateGetBestWeightedTransition weightedCtxSearch).1.BandwidthDelta ≤ 0 ∧
    ((provisionalAllocateGetBestWeightedTransition weightedCtxSearch).1.To.Spatial ≤ 2 ∧
     (provisionalAllocateGetBestWeightedTransition weightedCtxSearch).1.To.Temporal ≤ 2) :=
  ⟨(weighted_transition_never_upgrade weightedCtxSearch
      (by intro s t; simp only [weightedCtxSearch]; split <;> omega)
      (by decide) (by decide) (by decide)).1,
   (weighted_transition_never_upgrade weightedCtxSearch
      (by intro s t; simp only [weightedCtxSearch]; split <;> omega)
      (by decide) (by decide) (by decide)).2 (by decide)⟩

theorem obnScanS_zero_of_neg_temporal (brs : Bitrates) (maxT : Int) (hT : maxT < 0) :
    ∀ n, obnScanS brs maxT n = 0 := by
  intro n
  induction n with
  | zero => rfl
  | succ n ih =>
    unfold obnScanS
    have h0 : (maxT + 1).toNat = 0 := by omega
    rw [h0]
    simpa [obnScanT] using ih

/-- `getOptimalBandwidthNeeded` is 0 whenever MaxLayer is invalid or the max
published spatial layer is invalid. -/
theorem obn_zero_of_invalid (muted pubMuted : Bool) (msp : Int) (brs : Bitrates)
    (ml : VideoLayer) (h : ¬ml.IsValid ∨ msp = InvalidLayerSpatial) :
    getOptimalBandwidthNeeded muted pubMuted msp brs ml = 0 := by
  unfold getOptimalBandwidthNeeded
  by_cases hg : muted = true ∨ pubMuted = true ∨ msp = InvalidLayerSpatial
  · rw [if_pos hg]
  · rw [if_neg hg]
    rcases h with hml | hmsp
    · unfold VideoLayer.IsValid at hml
      push_neg at hml
      by_cases hsp : ml.Spatial < 0
      · have h0 : (ml.Spatial + 1).toNat = 0 := by omega
        rw [h0]
        rfl
      · exact obnScanS_zero_of_neg_temporal brs ml.Temporal (by omega) _
    · exact absurd (Or.inr (Or.inr hmsp)) hg

/-- C5 counterexample: the claim "MaxLayer invalid or MaxSeen.spatial
invalid ⇒ no pause reason set (PauseReason = None)" fails: with MaxLayer
invalid, `optimalBandwidthNeeded` computes 0 and forwarder.go:637-639 sets
PauseReason = FeedDry before the switch. -/
theorem allocate_optimal_invalid_max_counterexample :
    ¬optimalInpInvalidMax.maxLayer.IsValid ∧
    (allocateOptimal optimalInpInvalidMax [] (fun _ _ => 0) false).PauseReason ≠
      VideoPauseReason.None := by
  decide

/-- C5 (amended): on a video forwarder, if MaxLayer is invalid or
MaxSeen.spatial is invalid, `AllocateOptimal` leaves the target layer
invalid, but the pause reason is FeedDry (not None): the zero optimal
bandwidth computed in this regime marks the allocation feed-dry. -/
theorem allocate_optimal_invalid_max (inp : OptimalInputs) (availableLayers : List Int)
    (brs : Bitrates) (allowOvershoot : Bool)
    (hvid : inp.isVideo)
    (hinv : ¬inp.maxLayer.IsValid ∨ inp.maxSeenLayer.Spatial = InvalidLayerSpatial) :
    (allocateOptimal inp availableLayers brs allowOvershoot).TargetLayer = InvalidLayer ∧
    (allocateOptimal inp availableLayers brs allowOvershoot).PauseReason =
      VideoPauseReason.FeedDry := by
  have hobn : getOptimalBandwidthNeeded inp.muted inp.pubMuted inp.maxSeenLayer.Spatial
      brs inp.maxLayer = 0 := obn_zero_of_invalid _ _ _ _ _ hinv
  simp only [allocateOptimal]
  rw [if_neg (by simp [hvid])]
  rw [if_pos hinv, hobn]
  unfold updateAllocationResult
  simp [InvalidLayer, VideoLayer.IsValid, InvalidLayerSpatial, InvalidLayerTemporal]

theorem allocate_optimal_invalid_max_witness :
    (allocateOptimal optimalInpInvalidMax [] (fun _ _ => 7) false).TargetLayer =
      InvalidLayer ∧
    (allocateOptimal optimalInpInvalidMax [] (fun _ _ => 7) false).PauseReason =
      VideoPauseReason.FeedDry :=
  allocate_optimal_invalid_max optimalInpInvalidMax [] (fun _ _ => 7) false
    (by decide) (by decide)

/-- C6 counterexample: the claim (scenario S2) "MaxLayer=(2,3),
MaxSeen=(2,3), not muted, all bitrates zero ⇒ target invalid" fails: with
the current layer invalid, the default branch latches opportunistically
(forwarder.go:721-729) and the returned target is (2,3), which is valid. -/
theorem allocate_optimal_feed_dry_counterexample :
    (allocateOptimal optimalInpFeedDry [] (fun _ _ => 0) false).TargetLayer ≠
      InvalidLayer := by
  decide

/-- C6 (amended): with MaxLayer=(2,3), MaxSeen=(2,3), not muted and not
pub-muted, all bitrates zero, current layer invalid and no available
layers, `AllocateOptimal` returns PauseReason = FeedDry and
BandwidthRequested = 0, but the target layer is the opportunistic latch
(2,3), not the invalid layer. -/
theorem allocate_optimal_feed_dry :
    (allocateOptimal optimalInpFeedDry [] (fun _ _ => 0) false).TargetLayer = ⟨2, 3⟩ ∧
    (allocateOptimal optimalInpFeedDry [] (fun _ _ => 0) false).PauseReason =
      VideoPauseReason.FeedDry ∧
    (allocateOptimal optimalInpFeedDry [] (fun _ _ => 0) false).BandwidthRequested = 0 := by
  decide

/-- C8: when no early-out guard fires (not muted/pub-muted, max layers
valid, probed layer within MaxLayer or overshoot permitted), the probed
layer has a non-zero bitrate and does not fit
(`requiredBitrate > capacity + alreadyAllocated`), a call with
`allowPause = false` commits the probed layer (returns success) exactly when
no layer has yet been committed or the probed layer is not an upgrade over
the currently-provisional allocation. -/
theorem provisional_allocate_no_fit_commit (pv : Provisional) (overshootOkay : Bool)
    (cap : Int) (layer : VideoLayer) (allowOvershoot : Bool)
    (hm : ¬pv.muted) (hpm : ¬pv.pubMuted)
    (hms : pv.maxSeenLayer.Spatial ≠ InvalidLayerSpatial)
    (hml : pv.maxLayer.IsValid)
    (hov : ¬layer.GreaterThan pv.maxLayer ∨ (allowOvershoot ∧ overshootOkay))
    (hbr : pv.bitrates layer.Spatial layer.Temporal ≠ 0)
    (hnofit : pv.bitrates layer.Spatial layer.Temporal >
      cap + (if pv.allocatedLayer.IsValid then
        pv.bitrates pv.allocatedLayer.Spatial pv.allocatedLayer.Temporal else 0)) :
    ((provisionalAllocate pv overshootOkay cap layer false allowOvershoot).1.1 = true ↔
      (¬pv.allocatedLayer.IsValid ∨ ¬layer.GreaterThan pv.allocatedLayer)) ∧
    ((¬pv.allocatedLayer.IsValid ∨ ¬layer.GreaterThan pv.allocatedLayer) →
      (provisionalAllocate pv overshootOkay cap layer false allowOvershoot).2 = layer) := by
  have hguard : ¬(pv.muted = true ∨ pv.pubMuted = true ∨
      pv.maxSeenLayer.Spatial = InvalidLayerSpatial ∨
      ¬pv.maxLayer.IsValid ∨
      ((¬allowOvershoot = true ∨ ¬overshootOkay = true) ∧ layer.GreaterThan pv.maxLayer)) := by
    simp only [hm, hpm, hms, hml]
    rcases hov with h | ⟨h1, h2⟩
    · simp [h]
    · simp [h1, h2]
  simp only [provisionalAllocate]
  rw [if_neg hguard, if_neg hbr]
  rw [if_neg (fun hc => absurd hc.2 (not_le.mpr hnofit))]
  by_cases hr : ¬pv.allocatedLayer.IsValid ∨ ¬layer.GreaterThan pv.allocatedLayer
  · rw [if_pos ⟨by simp, hr⟩]
    simp [hr]
  · rw [if_neg (fun hc => hr hc.2)]
    simp [hr]

theorem provisional_allocate_no_fit_commit_witness :
    ((provisionalAllocate provisionalNoFit false 50 ⟨0, 0⟩ false false).1.1 = true ↔
      (¬provisionalNoFit.allocatedLayer.IsValid ∨
        ¬VideoLayer.GreaterThan ⟨0, 0⟩ provisionalNoFit.allocatedLayer)) ∧
    ((¬provisionalNoFit.allocatedLayer.IsValid ∨
        ¬VideoLayer.GreaterThan ⟨0, 0⟩ provisionalNoFit.allocatedLayer) →
      (provisionalAllocate provisionalNoFit false 50 ⟨0, 0⟩ false false).2 = ⟨0, 0⟩) :=
  provisional_allocate_no_fit_commit provisionalNoFit false 50 ⟨0, 0⟩ false
    (by decide) (by decide) (by decide) (by decide) (by decide) (by decide) (by decide)

/-- C3 counterexample: the claim "if the existing target `From` is valid and
`From ≤ maximalLayer` then the returned `To` equals `From`" fails when the
bitrate at `From` is zero: here `From = (0,1)` is valid, the maximal layer
with non-zero bitrate under MaxLayer is `(1,0) ≥ From`, the workspace is not
muted, yet the returned `To` is the invalid layer, not `From`. -/
theorem coop_transition_claim_counterexample :
    (coopCtxZeroTargetRate.targetLayer.IsValid ∧
     (coopMaximalLayer coopCtxZeroTargetRate.prov.bitrates
        coopCtxZeroTargetRate.prov.maxLayer).map Prod.fst = some ⟨1, 0⟩ ∧
     ¬coopCtxZeroTargetRate.targetLayer.GreaterThan ⟨1, 0⟩) ∧
    (provisionalAllocateGetCooperativeTransition coopCtxZeroTargetRate false).1.To ≠
      coopCtxZeroTargetRate.targetLayer := by
  decide

/-- C3 (amended): `ProvisionalAllocateGetCooperativeTransition` never
upgrades: if the workspace is not muted and not pub-muted, the existing
target `From` is valid, `From ≤ maximalLayer` (the highest layer ≤ MaxLayer
with non-zero bitrate, which exists), and the bitrate at `From` is non-zero,
then the returned `To` equals `From` (and `From` is also committed as the
provisional allocated layer). -/
theorem coop_transition_no_upgrade
    (ctx : ProvisionalContext) (allowOvershoot : Bool) (ml : VideoLayer) (mbw : Int)
    (hm : ¬ctx.prov.muted) (hpm : ¬ctx.prov.pubMuted)
    (hv : ctx.targetLayer.IsValid)
    (hscan : coopMaximalLayer ctx.prov.bitrates ctx.prov.maxLayer = some (ml, mbw))
    (hle : ¬ctx.targetLayer.GreaterThan ml)
    (hbr : ctx.prov.bitrates ctx.targetLayer.Spatial ctx.targetLayer.Temporal ≠ 0) :
    (provisionalAllocateGetCooperativeTransition ctx allowOvershoot).1.To =
      ctx.targetLayer ∧
    (provisionalAllocateGetCooperativeTransition ctx allowOvershoot).2 =
      ctx.targetLayer := by
  unfold provisionalAllocateGetCooperativeTransition
  rw [if_neg (by simp [hm, hpm])]
  simp only [hv, if_pos, hscan, hle, hbr, ne_eq, not_false_eq_true, and_self, if_true]

theorem coop_transition_no_upgrade_witness :
    (provisionalAllocateGetCooperativeTransition coopCtxHold false).1.To =
      coopCtxHold.targetLayer ∧
    (provisionalAllocateGetCooperativeTransition coopCtxHold false).2 =
      coopCtxHold.targetLayer :=
  coop_transition_no_upgrade coopCtxHold false ⟨1, 0⟩ 100 (by decide) (by decide)
    (by decide) (by decide) (by decide) (by decide)

theorem u64sub_succ_self (l : Nat) : u64sub ((l + 1) % UINT64_MOD) l = 1 := by
  simp only [u64sub, UINT64_MOD]
  omega

theorem toInt64_one : toInt64 1 = 1 := by decide

/-- The guard always yields a timestamp strictly after `extLastTS` in the
signed 64-bit sense. -/
theorem tsGuard_pos (l c : Nat) : 0 < toInt64 (u64sub (tsGuard l c) l) := by
  unfold tsGuard
  by_cases h : toInt64 (u64sub c l) ≤ 0
  · simp only [h, if_pos]
    rw [u64sub_succ_self, toInt64_one]
    exact Int.zero_lt_one
  · simp only [h, if_neg, not_false_iff]
    omega

/-- C1: every successful source switch selects an output timestamp strictly
greater than the last forwarded output timestamp, as a signed 64-bit
difference: the guard at forwarder.go:1651-1655 replaces any candidate with
non-positive difference by `extLastTS + 1`. -/
theorem sourceSwitch_ts_strictly_monotone
    (clockRate lastSSRC : Nat) (rbt : Rat) (extLastTS extRefTS extExpectedTS ts : Nat)
    (h : selectNextTS clockRate lastSSRC rbt extLastTS extRefTS extExpectedTS = some ts) :
    0 < toInt64 (u64sub ts extLastTS) := by
  unfold selectNextTS at h
  by_cases h0 : lastSSRC = 0
  · simp only [h0, if_pos, Option.some.injEq] at h
    subst h
    exact tsGuard_pos _ _
  · simp only [h0, if_neg, not_false_iff] at h
    split at h
    · split at h
      · exact absurd h (by simp)
      · simp only [Option.some.injEq] at h
        subst h
        exact tsGuard_pos _ _
    · simp only [Option.some.injEq] at h
      subst h
      exact tsGuard_pos _ _

theorem sourceSwitch_ts_strictly_monotone_witness :
    0 < toInt64 (u64sub 500000 1000) :=
  sourceSwitch_ts_strictly_monotone 90000 1 0 1000 500000 700000 500000 (by decide)

/-- C2: on a layer switch (`lastSSRC ≠ 0`) with
`diff1 = int64(extRefTS - extLastTS) / clockRate` negative:
if `|diff1| > 0.05 s` (i.e. `20·|num| > clockRate`) the switch errors, the
packet is dropped and the munger state is returned untouched (no
`UpdateSnTsOffsets`); if `|diff1| ≤ 0.05 s` the switch succeeds with
`extNextTS = extLastTS + 1` (mod `2^64`) and the munger offsets are updated
with a timestamp delta of 1. -/
theorem layerSwitch_behind_threshold
    {α : Type} (upd : Nat → α → α) (uagst : α → Option α)
    (pktSSRC clockRate : Nat) (rbt : Rat)
    (extLastTS extRefTS extExpectedTS : Nat) (cs : CommonState α) (st : α)
    (hs : cs.lastSSRC ≠ 0) (hdiff : cs.lastSSRC ≠ pktSSRC)
    (hneg : toInt64 (u64sub extRefTS extLastTS) < 0) :
    (20 * (toInt64 (u64sub extRefTS extLastTS)).natAbs > clockRate →
      selectNextTS clockRate cs.lastSSRC rbt extLastTS extRefTS extExpectedTS = none ∧
      commonStep upd uagst pktSSRC clockRate rbt extLastTS extRefTS extExpectedTS cs = (true, cs)) ∧
    (20 * (toInt64 (u64sub extRefTS extLastTS)).natAbs ≤ clockRate →
      selectNextTS clockRate cs.lastSSRC rbt extLastTS extRefTS extExpectedTS =
        some ((extLastTS + 1) % UINT64_MOD) ∧
      sourceSwitchApply upd clockRate cs.lastSSRC rbt extLastTS extRefTS extExpectedTS st =
        some (upd 1 st)) := by
  have hsel : selectNextTS clockRate cs.lastSSRC rbt extLastTS extRefTS extExpectedTS =
      if 20 * (toInt64 (u64sub extRefTS extLastTS)).natAbs > clockRate then none
      else some (tsGuard extLastTS ((extLastTS + 1) % UINT64_MOD)) := by
    unfold selectNextTS
    simp only [hs, if_neg, not_false_iff, hneg, if_pos]
  have hguard : tsGuard extLastTS ((extLastTS + 1) % UINT64_MOD) =
      (extLastTS + 1) % UINT64_MOD := by
    unfold tsGuard
    rw [u64sub_succ_self, toInt64_one]
    simp
  constructor
  · intro hfar
    have h1 : selectNextTS clockRate cs.lastSSRC rbt extLastTS extRefTS extExpectedTS = none := by
      rw [hsel, if_pos hfar]
    refine ⟨h1, ?_⟩
    unfold commonStep sourceSwitchApply
    simp only [hdiff, if_pos, h1, if_true, ne_eq, not_false_eq_true]
  · intro hnear
    have h1 : selectNextTS clockRate cs.lastSSRC rbt extLastTS extRefTS extExpectedTS =
        some ((extLastTS + 1) % UINT64_MOD) := by
      rw [hsel, if_neg (by omega), hguard]
    refine ⟨h1, ?_⟩
    unfold sourceSwitchApply
    rw [h1]
    show some (upd (u64sub ((extLastTS + 1) % UINT64_MOD) extLastTS) st) = some (upd 1 st)
    rw [u64sub_succ_self]

/-- C10: when not muted, `Mute(true, isSubscribeMutable := false)` declines:
it returns `false` and leaves the forwarder state (muted flag, current
layer, lastSSRC, resumeBehindThreshold) entirely unchanged. -/
theorem mute_declined_when_not_subscribe_mutable
    (st : MuteState) (h : st.muted = false) :
    Mute st true false = (false, st) := by
  unfold Mute
  rw [if_neg (by simp [h]), if_pos (by simp)]

theorem mute_declined_when_not_subscribe_mutable_witness :
    Mute ⟨false, false, ⟨1, 2⟩, 99, 0⟩ true false = (false, ⟨false, false, ⟨1, 2⟩, 99, 0⟩) :=
  mute_declined_when_not_subscribe_mutable ⟨false, false, ⟨1, 2⟩, 99, 0⟩ rfl

theorem layerSwitch_behind_threshold_witness :
    selectNextTS 90000 5 0 1000000 910000 1000000 = none ∧
    commonStep (fun d m => m + d) (fun m => some m) 7 90000 0 1000000 910000 1000000
      (⟨5, (42 : Nat)⟩ : CommonState Nat) = (true, ⟨5, 42⟩) :=
  (layerSwitch_behind_threshold (fun d m => m + d) (fun m => some m) 7 90000 0
    1000000 910000 1000000 ⟨5, 42⟩ 42 (by decide) (by decide) (by decide)).1 (by decide)

end Forwarder
